import Mathlib

/-!
Verification of the taipy `_VersionFSRepository` slice
(`src/taipy/core/_version/_version_fs_repository.py`).

The repository owns a single JSON pointer document `version.json` with three
fields (`latest_version`, `development_version`, `production_version`) and a
codec between the in-memory `_Version` entity and its `_VersionModel` record.
The pointer document either exists on disk or not, which we model as an
`Option PointerDoc`; each operation is the read-modify-write function the
Python code performs on that state.  An exception raised before the
`write_text` call leaves the state unchanged; exceptions are modelled with
`Except`.
-/

set_option autoImplicit false

namespace VersionFS

/-- The parsed content of `version.json`: the three pointer fields the
repository reads and writes (`latest_version`, `development_version`,
`production_version`). -/
structure PointerDoc where
  latest_version : String
  development_version : String
  production_version : List String
deriving DecidableEq, Repr

/-- Errors surfaced by the pointer-store operations.  `fileNotFound` is the
`FileNotFoundError` that `open` raises when `version.json` is absent (the
spec calls it `PointerFileNotFound`); `versionIsNotProductionVersion` is the
repository exception `VersionIsNotProductionVersion` carrying its message. -/
inductive RepoError where
  | fileNotFound
  | versionIsNotProductionVersion (msg : String)
deriving DecidableEq, Repr

/-- Python `_set_latest_version`: if the file exists, overwrite only
`latest_version`; otherwise create the document with empty development
version and empty production list.  Always writes, never fails. -/
def _set_latest_version (version_number : String) : Option PointerDoc → PointerDoc
  | some d => { d with latest_version := version_number }
  | none =>
      { latest_version := version_number
        development_version := ""
        production_version := [] }

/-- Python `_get_latest_version`: read the file and return `latest_version`;
`open` raises `FileNotFoundError` when the document is absent. -/
def _get_latest_version : Option PointerDoc → Except RepoError String
  | some d => .ok d.latest_version
  | none => .error .fileNotFound

/-- Python `_set_development_version`: if the file exists, overwrite both
`development_version` and `latest_version`; otherwise create the document
with both set to the new id and an empty production list. -/
def _set_development_version (version_number : String) : Option PointerDoc → PointerDoc
  | some d =>
      { d with
        development_version := version_number
        latest_version := version_number }
  | none =>
      { latest_version := version_number
        development_version := version_number
        production_version := [] }

/-- Python `_get_development_version`: read the file and return
`development_version`; fails like `_get_latest_version` when absent. -/
def _get_development_version : Option PointerDoc → Except RepoError String
  | some d => .ok d.development_version
  | none => .error .fileNotFound

/-- The informational log message `_set_production_version` emits when the
id is already a production version. -/
def alreadyProductionMsg (version_number : String) : String :=
  "Version " ++ version_number ++ " is already a production version."

/-- Python `_set_production_version`: if the file exists, set `latest_version`,
then append the id to `production_version` only when not already present
(otherwise just log); if absent, create the document with the id as sole
production version and empty development version.  Returns the new document
together with the list of informational log messages emitted. -/
def _set_production_version (version_number : String) :
    Option PointerDoc → PointerDoc × List String
  | some d =>
      if version_number ∉ d.production_version then
        ({ d with
            latest_version := version_number
            production_version := d.production_version ++ [version_number] }, [])
      else
        ({ d with latest_version := version_number },
          [alreadyProductionMsg version_number])
  | none =>
      ({ latest_version := version_number
         development_version := ""
         production_version := [version_number] }, [])

/-- Python `_get_production_version`: read the file and return the
`production_version` list; fails when the document is absent. -/
def _get_production_version : Option PointerDoc → Except RepoError (List String)
  | some d => .ok d.production_version
  | none => .error .fileNotFound

/-- The message carried by `VersionIsNotProductionVersion`. -/
def notProductionMsg (version_number : String) : String :=
  "Version " ++ version_number ++ " is not a production version."

/-- Python `_delete_production_version`: reading an absent file raises
`FileNotFoundError`, which the `except` clause turns into
`VersionIsNotProductionVersion`; an id absent from `production_version`
raises `VersionIsNotProductionVersion` before any write; otherwise
`list.remove` drops the first occurrence and the document is rewritten. -/
def _delete_production_version (version_number : String) :
    Option PointerDoc → Except RepoError PointerDoc
  | some d =>
      if version_number ∉ d.production_version then
        .error (.versionIsNotProductionVersion (notProductionMsg version_number))
      else
        .ok { d with production_version := d.production_version.erase version_number }
  | none => .error (.versionIsNotProductionVersion (notProductionMsg version_number))

/-- The pointer-store operations that mutate the document. -/
inductive Op where
  | setLatest (v : String)
  | setDevelopment (v : String)
  | setProduction (v : String)
  | removeProduction (v : String)
deriving DecidableEq, Repr

/-- Effect of one operation on the on-disk state.  A setter always rewrites
the file; `removeProduction` rewrites it only on success — when it raises,
the write statement is never reached, so the state is unchanged. -/
def applyOp (op : Op) (s : Option PointerDoc) : Option PointerDoc :=
  match op with
  | .setLatest v => some (_set_latest_version v s)
  | .setDevelopment v => some (_set_development_version v s)
  | .setProduction v => some (_set_production_version v s).1
  | .removeProduction v =>
      match _delete_production_version v s with
      | .ok d => some d
      | .error _ => s

/-- Run a sequence of operations starting from the absent document. -/
def run (ops : List Op) : Option PointerDoc :=
  ops.foldl (fun s op => applyOp op s) none

/-- The production list of the document (if any) has no duplicate id. -/
def prodNodup : Option PointerDoc → Prop
  | some d => d.production_version.Nodup
  | none => True

instance (s : Option PointerDoc) : Decidable (prodNodup s) := by
  cases s with
  | none => exact isTrue trivial
  | some d => exact inferInstanceAs (Decidable d.production_version.Nodup)

/-- Each single operation preserves the no-duplicate invariant of the
production list. -/
theorem applyOp_prodNodup (op : Op) (s : Option PointerDoc)
    (h : prodNodup s) : prodNodup (applyOp op s) := by
  cases op with
  | setLatest v =>
      cases s with
      | none => simp [applyOp, _set_latest_version, prodNodup]
      | some d => simpa [applyOp, _set_latest_version, prodNodup] using h
  | setDevelopment v =>
      cases s with
      | none => simp [applyOp, _set_development_version, prodNodup]
      | some d => simpa [applyOp, _set_development_version, prodNodup] using h
  | setProduction v =>
      cases s with
      | none => simp [applyOp, _set_production_version, prodNodup]
      | some d =>
          by_cases hv : v ∈ d.production_version
          · simpa [applyOp, _set_production_version, hv, prodNodup] using h
          · simp only [applyOp, _set_production_version, hv, not_false_iff, if_pos,
              prodNodup] at h ⊢
            refine List.Nodup.append h (List.nodup_singleton v) ?_
            intro a ha hav
            exact hv (List.mem_singleton.mp hav ▸ ha)
  | removeProduction v =>
      cases s with
      | none => simp [applyOp, _delete_production_version, prodNodup]
      | some d =>
          by_cases hv : v ∈ d.production_version
          · simp only [applyOp, _delete_production_version, hv, not_true, if_neg,
              prodNodup] at h ⊢
            exact List.Nodup.erase v h
          · simpa [applyOp, _delete_production_version, hv, prodNodup] using h

/-!
### Version entity codec

`_to_model` / `_from_model` convert between the in-memory `_Version` entity
and its on-disk `_VersionModel` record.  The configuration serializer
(`Config._to_json` / `Config._from_json`) and the timestamp codec
(`datetime.isoformat` / `datetime.fromisoformat`) are external collaborators,
so the embedding is parameterized over them.
-/

/-- The in-memory version entity `_Version`: id, opaque configuration
snapshot and creation timestamp.  `Cfg` is the opaque configuration type and
`DT` the timestamp type. -/
structure _Version (Cfg DT : Type) where
  id : String
  config : Cfg
  creation_date : DT
deriving DecidableEq, Repr

/-- The on-disk record `_VersionModel`: id, JSON-serialized configuration
(of external JSON type `J`) and the creation date as an ISO-8601 string. -/
structure _VersionModel (J : Type) where
  id : String
  config : J
  creation_date : String
deriving DecidableEq, Repr

/-- Python `_to_model`: record with the same id, the configuration run through the
external serializer `to_json` (`Config._to_json`), and the timestamp
formatted by `isoformat`. -/
def _to_model {Cfg DT J : Type} (to_json : Cfg → J) (isoformat : DT → String)
    (version : _Version Cfg DT) : _VersionModel J :=
  { id := version.id
    config := to_json version.config
    creation_date := isoformat version.creation_date }

/-- Python `_from_model`: entity with the same id, the configuration run through
the external deserializer `from_json` (`Config._from_json`), and the
creation date parsed by `fromisoformat`. -/
def _from_model {Cfg DT J : Type} (from_json : J → Cfg) (fromisoformat : String → DT)
    (model : _VersionModel J) : _Version Cfg DT :=
  { id := model.id
    config := from_json model.config
    creation_date := fromisoformat model.creation_date }

/-!
### Claims
-/

/-- C1: for every sequence of pointer-store operations starting from the
absent document, the `production_version` list of the resulting pointer
document contains no duplicate id — the duplicate-free predicate is
preserved by `_set_latest_version`, `_set_development_version`,
`_set_production_version` and `_delete_production_version`. -/
theorem C1_production_versions_nodup (ops : List Op) : prodNodup (run ops) := by
  have key : ∀ (l : List Op) (s : Option PointerDoc), prodNodup s →
      prodNodup (l.foldl (fun s op => applyOp op s) s) := by
    intro l
    induction l with
    | nil => exact fun s h => h
    | cons op t ih => exact fun s h => ih _ (applyOp_prodNodup op s h)
  exact key ops none trivial

/-- C2: when `v` is already in `production_version`, `_set_production_version v`
succeeds (it is total, no error path), leaves the production list unchanged so
a subsequent `_get_production_version` contains `v` exactly once, still sets
`latest_version` to `v`, and emits exactly the informational log message. -/
theorem C2_duplicate_production_insert (v : String) (d : PointerDoc)
    (hmem : v ∈ d.production_version) (hnd : d.production_version.Nodup) :
    (_set_production_version v (some d)).1.latest_version = v ∧
    (_set_production_version v (some d)).1.production_version = d.production_version ∧
    _get_production_version (some (_set_production_version v (some d)).1) =
      .ok d.production_version ∧
    (_set_production_version v (some d)).1.production_version.count v = 1 ∧
    (_set_production_version v (some d)).2 = [alreadyProductionMsg v] := by
  have hif : _set_production_version v (some d)
      = ({ d with latest_version := v }, [alreadyProductionMsg v]) := by
    simp [_set_production_version, hmem]
  rw [hif]
  exact ⟨rfl, rfl, rfl, List.count_eq_one_of_mem hnd hmem, rfl⟩

/-- C2 witness at a concrete document. -/
theorem C2_duplicate_production_insert_witness :
    (_set_production_version "p" (some ⟨"x", "y", ["p", "q"]⟩)).1.latest_version = "p" ∧
    (_set_production_version "p" (some ⟨"x", "y", ["p", "q"]⟩)).1.production_version
      = ["p", "q"] ∧
    _get_production_version
      (some (_set_production_version "p" (some ⟨"x", "y", ["p", "q"]⟩)).1) =
      .ok ["p", "q"] ∧
    (_set_production_version "p" (some ⟨"x", "y", ["p", "q"]⟩)).1.production_version.count "p"
      = 1 ∧
    (_set_production_version "p" (some ⟨"x", "y", ["p", "q"]⟩)).2 =
      [alreadyProductionMsg "p"] :=
  C2_duplicate_production_insert "p" ⟨"x", "y", ["p", "q"]⟩ (by decide) (by decide)

/-- C3: `_set_development_version v` on the absent document creates it with
`latest_version = v`, `development_version = v`, `production_version = []`;
on a present document it overwrites both `development_version` and
`latest_version` to `v` and leaves `production_version` unchanged. -/
theorem C3_set_development_version (v : String) :
    _set_development_version v none =
      { latest_version := v, development_version := v, production_version := [] } ∧
    ∀ d : PointerDoc, _set_development_version v (some d) =
      { latest_version := v, development_version := v,
        production_version := d.production_version } :=
  ⟨rfl, fun _ => rfl⟩

/-- C4: `_delete_production_version v` fails with the
`VersionIsNotProductionVersion` error both when the document exists without
`v` in `production_version` and when the document is absent, and the two
failures are the very same error value — not a distinct not-found error. -/
theorem C4_remove_production_error_kinds (v : String) (d : PointerDoc)
    (h : v ∉ d.production_version) :
    _delete_production_version v (some d) =
      .error (.versionIsNotProductionVersion (notProductionMsg v)) ∧
    _delete_production_version v none =
      .error (.versionIsNotProductionVersion (notProductionMsg v)) := by
  refine ⟨?_, rfl⟩
  simp [_delete_production_version, h]

/-- C4 witness at a concrete document. -/
theorem C4_remove_production_error_kinds_witness :
    _delete_production_version "x" (some ⟨"l", "d", ["p"]⟩) =
      .error (.versionIsNotProductionVersion (notProductionMsg "x")) ∧
    _delete_production_version "x" none =
      .error (.versionIsNotProductionVersion (notProductionMsg "x")) :=
  C4_remove_production_error_kinds "x" ⟨"l", "d", ["p"]⟩ (by decide)

/-- C5: `_set_latest_version v` on the absent document creates it with
`latest_version = v`, `development_version = ""`, `production_version = []`;
on a present document it changes only `latest_version` and leaves
`development_version` and `production_version` exactly as they were. -/
theorem C5_set_latest_version (v : String) :
    _set_latest_version v none =
      { latest_version := v, development_version := "", production_version := [] } ∧
    ∀ d : PointerDoc, _set_latest_version v (some d) =
      { latest_version := v, development_version := d.development_version,
        production_version := d.production_version } :=
  ⟨rfl, fun _ => rfl⟩

/-- C6: `_set_production_version` appends a new id at the end of
`production_version` preserving the prior order, and on a fresh document
`setProduction "a"` then `setProduction "b"` yields
`getProduction = ["a", "b"]`. -/
theorem C6_production_append_order :
    (∀ (d : PointerDoc) (v : String), v ∉ d.production_version →
      (_set_production_version v (some d)).1.production_version =
        d.production_version ++ [v]) ∧
    _get_production_version
      (applyOp (.setProduction "b") (applyOp (.setProduction "a") none)) =
      .ok ["a", "b"] := by
  constructor
  · intro d v h
    simp [_set_production_version, h]
  · rfl

/-- C6 witness discharging the membership hypothesis at a concrete input. -/
theorem C6_production_append_order_witness :
    (_set_production_version "b" (some ⟨"a", "", ["a"]⟩)).1.production_version =
      ["a", "b"] :=
  C6_production_append_order.1 ⟨"a", "", ["a"]⟩ "b" (by decide)

/-- C7: on a present document containing `v`, `_delete_production_version v`
removes exactly one occurrence of `v` (the count of `v` drops by one and the
count of every other id is unchanged) and rewrites the document with
`latest_version` and `development_version` unchanged; concretely, after
`setProduction "p1"`, `setProduction "p2"`, `removeProduction "p1"`,
`getProduction = ["p2"]` and a second `removeProduction "p1"` fails with
`VersionIsNotProductionVersion`. -/
theorem C7_remove_production_correct (v : String) (d : PointerDoc)
    (h : v ∈ d.production_version) :
    _delete_production_version v (some d) =
      .ok { latest_version := d.latest_version,
            development_version := d.development_version,
            production_version := d.production_version.erase v } ∧
    (d.production_version.erase v).count v = d.production_version.count v - 1 ∧
    (∀ w : String, w ≠ v →
      (d.production_version.erase v).count w = d.production_version.count w) ∧
    _get_production_version
      (run [.setProduction "p1", .setProduction "p2", .removeProduction "p1"]) =
      .ok ["p2"] ∧
    _delete_production_version "p1"
      (run [.setProduction "p1", .setProduction "p2", .removeProduction "p1"]) =
      .error (.versionIsNotProductionVersion (notProductionMsg "p1")) := by
  refine ⟨?_, List.count_erase_self .., fun w hw => List.count_erase_of_ne hw .., ?_, ?_⟩
  · simp [_delete_production_version, h]
  · rfl
  · rfl

/-- C7 witness at a concrete document. -/
theorem C7_remove_production_correct_witness :
    _delete_production_version "p" (some ⟨"l", "d", ["p", "q"]⟩) =
      .ok { latest_version := "l", development_version := "d",
            production_version := (["p", "q"] : List String).erase "p" } ∧
    ((["p", "q"] : List String).erase "p").count "p" =
      (["p", "q"] : List String).count "p" - 1 ∧
    (∀ w : String, w ≠ "p" →
      ((["p", "q"] : List String).erase "p").count w =
        (["p", "q"] : List String).count w) ∧
    _get_production_version
      (run [.setProduction "p1", .setProduction "p2", .removeProduction "p1"]) =
      .ok ["p2"] ∧
    _delete_production_version "p1"
      (run [.setProduction "p1", .setProduction "p2", .removeProduction "p1"]) =
      .error (.versionIsNotProductionVersion (notProductionMsg "p1")) :=
  C7_remove_production_correct "p" ⟨"l", "d", ["p", "q"]⟩ (by decide)

/-- C8: each getter — `_get_latest_version`, `_get_development_version`,
`_get_production_version` — fails with the file-not-found error when invoked
while the pointer document does not exist; no default value is substituted. -/
theorem C8_getters_fail_when_absent :
    _get_latest_version none = .error .fileNotFound ∧
    _get_development_version none = .error .fileNotFound ∧
    _get_production_version none = .error .fileNotFound :=
  ⟨rfl, rfl, rfl⟩

/-- C9: assuming the external config serializer and deserializer are
mutually inverse, and that the timestamp codec round-trips to string
precision, `_from_model` after `_to_model` reproduces the entity id, the
config, and the creation date up to its ISO string. -/
theorem C9_codec_roundtrip {Cfg DT J : Type}
    (to_json : Cfg → J) (from_json : J → Cfg)
    (isoformat : DT → String) (fromisoformat : String → DT)
    (hcfg : ∀ c : Cfg, from_json (to_json c) = c)
    (hdt : ∀ d : DT, isoformat (fromisoformat (isoformat d)) = isoformat d)
    (e : _Version Cfg DT) :
    (_from_model from_json fromisoformat (_to_model to_json isoformat e)).id = e.id ∧
    (_from_model from_json fromisoformat (_to_model to_json isoformat e)).config
      = e.config ∧
    isoformat
        (_from_model from_json fromisoformat (_to_model to_json isoformat e)).creation_date
      = isoformat e.creation_date :=
  ⟨rfl, hcfg e.config, hdt e.creation_date⟩

/-- C9 witness at concrete (identity) collaborators and a concrete entity. -/
theorem C9_codec_roundtrip_witness :
    (_from_model (fun j : String => j) (fun s : String => s)
        (_to_model (fun c : String => c) (fun t : String => t)
          ⟨"id0", "cfg0", "2022-01-01"⟩)).id = "id0" ∧
    (_from_model (fun j : String => j) (fun s : String => s)
        (_to_model (fun c : String => c) (fun t : String => t)
          ⟨"id0", "cfg0", "2022-01-01"⟩)).config = "cfg0" ∧
    (fun t : String => t)
        (_from_model (fun j : String => j) (fun s : String => s)
          (_to_model (fun c : String => c) (fun t : String => t)
            ⟨"id0", "cfg0", "2022-01-01"⟩)).creation_date
      = (fun t : String => t) "2022-01-01" :=
  C9_codec_roundtrip (fun c => c) (fun j => j) (fun t => t) (fun s => s)
    (fun _ => rfl) (fun _ => rfl) ⟨"id0", "cfg0", "2022-01-01"⟩

/-- C10: when `_delete_production_version v` fails on a present document
(`v` not in `production_version`), it raises before reaching the write, so
the on-disk state is unchanged by the failed call. -/
theorem C10_remove_production_atomic_on_error (v : String) (d : PointerDoc)
    (h : v ∉ d.production_version) :
    _delete_production_version v (some d) =
      .error (.versionIsNotProductionVersion (notProductionMsg v)) ∧
    applyOp (.removeProduction v) (some d) = some d := by
  have he : _delete_production_version v (some d) =
      .error (.versionIsNotProductionVersion (notProductionMsg v)) := by
    simp [_delete_production_version, h]
  exact ⟨he, by simp [applyOp, he]⟩

/-- C10 witness at a concrete document. -/
theorem C10_remove_production_atomic_on_error_witness :
    _delete_production_version "z" (some ⟨"l", "d", ["p1", "p2"]⟩) =
      .error (.versionIsNotProductionVersion (notProductionMsg "z")) ∧
    applyOp (.removeProduction "z") (some ⟨"l", "d", ["p1", "p2"]⟩) =
      some ⟨"l", "d", ["p1", "p2"]⟩ :=
  C10_remove_production_atomic_on_error "z" ⟨"l", "d", ["p1", "p2"]⟩ (by decide)

end VersionFS
